import Mathlib

/-!
Shallow embedding of the event subsystem of `flask_siox` (`events.py`):
`BaseEvent`, `Event`, `ClientEvent`, `ServerEvent`, `DuplexEvent`, together
with a model of the external schema layer (pydantic models: parse/validate
from a mapping, render/serialize to a mapping) and of the helpers
`remove_none`, `render_model`, `unpack_params`, `render_packed` imported by
`events.py` from `flask_siox.utils`.  That utils module is not part of the
sources, so those four helpers are modelled from the specification; every
other definition is translated from `events.py`.
-/

namespace FlaskSiox

/-- Python exceptions relevant to this subsystem: attribute access on an
object lacking the attribute (or on `None`), and schema-validation
failure from the schema layer. -/
inductive PyError where
  | attributeError
  | validationError
  deriving DecidableEq, Repr

/-- A Python value as it appears in payloads, handler results and
documentation fragments.  `pynone` is Python's `None`; `obj` is a dict /
model instance rendered as an ordered mapping; `func` stands for a
function object (a Python callable passed around as a value, as happens
in `ClientEvent.attach_ack`). -/
inductive PyVal where
  | int : Int → PyVal
  | str : String → PyVal
  | pynone : PyVal
  | obj : List (String × PyVal) → PyVal
  | list : List PyVal → PyVal
  | func : PyVal

/-- A documentation / keyword dictionary: an insertion-ordered mapping from
string keys to values (Python `dict`). -/
abbrev Docs := List (String × PyVal)

/-- Python `dict` lookup `d.get(k)` on the assoc-list model. -/
def dget : Docs → String → Option PyVal
  | [], _ => none
  | (k', v) :: rest, k => if k' = k then some v else dget rest k

/-- Python `d.update(o)`: values of keys already in `d` are replaced in
place (`o`'s value wins), keys new to `d` are appended in `o`'s order. -/
def dictUpdate (d o : Docs) : Docs :=
  d.map (fun kv => (kv.1, (dget o kv.1).getD kv.2)) ++
    o.filter (fun kv => (dget d kv.1).isNone)

/-- Python truth-value test for "absent/empty": `None`, empty list, empty
dict and empty string are falsy. -/
def isEmptyVal : PyVal → Bool
  | .pynone => true
  | .list [] => true
  | .obj [] => true
  | .str "" => true
  | _ => false

/-- Modelled from the spec: `remove_none` from `flask_siox.utils` (module
absent from src/).  Per the spec, extra fields are merged in (done at the
call sites here with `dictUpdate`) and "fields with absent/empty values
are dropped from the result". -/
def remove_none (d : Docs) : Docs :=
  d.filter (fun kv => !isEmptyVal kv.2)

/-- Field types of the external schema layer, enough for the schemas the
spec names (`Ping{value:int}`, `Pong{value:int}`, `Msg{text:str}`). -/
inductive FieldType where
  | int
  | str
  deriving DecidableEq, Repr

/-- An external pydantic model class: an optional declared display name
(`getattr(model, "name", None)`), the type's own `__name__`, and the
declared fields in order. -/
structure Schema where
  name : Option String
  typeName : String
  fields : List (String × FieldType)

/-- Validate one value against a declared field type (external schema
layer; no coercions modelled). -/
def checkField : FieldType → PyVal → Option PyVal
  | .int, .int n => some (.int n)
  | .str, .str s => some (.str s)
  | _, _ => none

/-- External schema layer: `model.parse_obj(data).dict()` — validate a raw
mapping against the schema, failing with a validation error when a
required field is missing or mistyped, and return the declared fields in
order with their values. -/
def Schema.parse_obj (s : Schema) (data : PyVal) : Except PyError (List (String × PyVal)) :=
  match data with
  | .obj kvs =>
    s.fields.mapM (fun fv =>
      match dget kvs fv.1 with
      | some v =>
        match checkField fv.2 v with
        | some v' => .ok (fv.1, v')
        | none => .error .validationError
      | none => .error .validationError)
  | _ => .error .validationError

/-- The rendering-option record built in `ClientEvent.__init__`,
`ClientEvent.attach_ack` and `ServerEvent.__init__`:
`{"exclude_none": ..., "include": ..., "exclude": ..., "by_alias": True}`. -/
structure RenderKwargs where
  exclude_none : Bool
  include_ : Option (List String)
  exclude : Option (List String)
  by_alias : Bool

/-- Apply the rendering options to the validated fields: keep a field when
it is in `include` (if given), not in `exclude` (if given), and not `None`
when `exclude_none` is set.  (No aliases are declared on the modelled
schemas, so `by_alias` is inert.) -/
def applyOpts (kw : RenderKwargs) (fields : List (String × PyVal)) : List (String × PyVal) :=
  fields.filter (fun kv =>
    (match kw.include_ with
     | some inc => inc.contains kv.1
     | none => true) &&
    (match kw.exclude with
     | some exc => !exc.contains kv.1
     | none => true) &&
    (match kv.2 with
     | .pynone => !kw.exclude_none
     | _ => true))

/-- Modelled from the spec: `render_model` from `flask_siox.utils` (module
absent from src/).  "the single result is validated/serialized as one
object" with the stored options; a mapping/instance is validated
field-by-field against the schema; per the spec's concrete scenario
(ack schema `Pong{value:int}`, handler result `5` renders as
`{"value": 5}`), a single raw value is validated as the schema's one
declared field; anything else is a validation error. -/
def render_model (s : Schema) (kw : RenderKwargs) (v : PyVal) : Except PyError PyVal :=
  match v with
  | .obj kvs => (s.parse_obj (.obj kvs)).map (fun fields => .obj (applyOpts kw fields))
  | .int n =>
    match s.fields with
    | [fv] =>
      match checkField fv.2 (.int n) with
      | some v' => .ok (.obj (applyOpts kw [(fv.1, v')]))
      | none => .error .validationError
    | _ => .error .validationError
  | .str t =>
    match s.fields with
    | [fv] =>
      match checkField fv.2 (.str t) with
      | some v' => .ok (.obj (applyOpts kw [(fv.1, v')]))
      | none => .error .validationError
    | _ => .error .validationError
  | _ => .error .validationError

/-- Modelled from the spec: `unpack_params` from `flask_siox.utils`
(module absent from src/).  "each element is validated/serialized
independently against the acknowledgment schema". -/
def unpack_params (s : Schema) (kw : RenderKwargs) (xs : List PyVal) :
    Except PyError (List PyVal) :=
  xs.mapM (render_model s kw)

/-- Modelled from the spec: `render_packed` from `flask_siox.utils`
(module absent from src/).  "the results are packed into a structured
multi-value acknowledgment". -/
def render_packed (xs : List PyVal) : PyVal :=
  .list xs

/-- `isinstance(result, Sequence)`: in Python, lists and strings are
`Sequence`s; dicts, ints, `None` and function objects are not. -/
def isSequence : PyVal → Bool
  | .list _ => true
  | .str _ => true
  | _ => false

/-- Python `x if x else y` on an optional string used as
`getattr(model, "name", None) or model.__name__`: `None` and the empty
string are falsy. -/
def Schema.displayName (s : Schema) : String :=
  match s.name with
  | some n => if n = "" then s.typeName else n
  | none => s.typeName

/-- Turn an optional string attribute into the Python value stored under a
dict key (`None` when absent). -/
def optStr : Option String → PyVal
  | none => .pynone
  | some s => .str s

/-- The concrete state shared by `Event` subclasses (`BaseEvent.__init__`
plus `Event.__init__`): name, namespace, stored extra docs, the payload
schema and the description.  For these classes `attach_name` just sets
`self.name`, so `BaseEvent.__init__`'s `attach_name(name)` call leaves
`name` equal to the argument. -/
structure Event where
  name : Option String
  namespace_ : Option String
  additional_docs : Option Docs
  model : Schema
  description : Option String

/-- `Event.create_doc(namespace, additional_docs)` from the source: the
schema's display name falls back to its type name; a `None` namespace
argument falls back to `self.namespace`; the tag list
`[{"name": f"namespace-{namespace}"}]` is produced when the resolved
namespace is still `None` (the f-string then renders `"namespace-None"`),
else `[]`; `remove_none` merges the stored and call-time extra docs over
the base dict (call-time extras win) and drops absent/empty values. -/
def Event.create_doc (e : Event) (ns_arg : Option String) (extra : Option Docs) : Docs :=
  let ns : Option String :=
    match ns_arg with
    | none => e.namespace_
    | some v => some v
  remove_none
    (dictUpdate
      (dictUpdate
        [("description", optStr e.description),
         ("tags",
          if ns.isNone then
            PyVal.list [PyVal.obj [("name", PyVal.str "namespace-None")]]
          else PyVal.list []),
         ("message",
          PyVal.obj [("$ref", PyVal.str ("#/components/messages/" ++ e.model.displayName))])]
        (e.additional_docs.getD []))
      (extra.getD []))

/-- The type of a stored handler: a callable from the raw incoming data
(`data=None` is modelled as `PyVal.pynone`) to a result, possibly raising. -/
abbrev HandlerFn := PyVal → Except PyError PyVal

/-- The type of a user handler `fn`: called as `fn(**parsed_fields)` with
the validated fields, returning an arbitrary value. -/
abbrev UserFn := List (String × PyVal) → PyVal

/-- `ClientEvent`: the inbound event.  Extends the `Event` state with the
ack rendering options `_ack_kwargs`, the stored `handler`, the optional
`ack_model` and the `force_wrap` flag. -/
structure ClientEvent extends Event where
  ack_kwargs : RenderKwargs
  handler : Option HandlerFn
  ack_model : Option Schema
  force_wrap : Bool

/-- `ClientEvent.__init__` from the source: `BaseEvent.__init__` stores
the namespace and (via `Event.attach_name`) the name;
`_ack_kwargs = {"exclude_none": exclude_none is not False, "include": ...,
"exclude": ..., "by_alias": True}`; the `handler` argument is stored as
given (unwrapped); `force_wrap = force_wrap is True`. -/
def ClientEvent.init (model : Schema) (ack_model : Option Schema)
    (namespace_ name description : Option String) (handler : Option HandlerFn)
    (include_ exclude : Option (List String)) (force_wrap exclude_none : Option Bool)
    (additional_docs : Option Docs) : ClientEvent :=
  { name := name
    namespace_ := namespace_
    additional_docs := additional_docs
    model := model
    description := description
    ack_kwargs :=
      { exclude_none := exclude_none != some false
        include_ := include_
        exclude := exclude
        by_alias := true }
    handler := handler
    ack_model := ack_model
    force_wrap := force_wrap == some true }

/-- `ClientEvent.parse(data)` from the source:
`self.model.parse_obj(data).dict()`. -/
def ClientEvent.parse (ev : ClientEvent) (data : PyVal) :
    Except PyError (List (String × PyVal)) :=
  ev.model.parse_obj data

/-- `ClientEvent._ack_response(result)` from the source: a `Sequence`
result goes through `render_packed(*unpack_params(ack_model, result,
**_ack_kwargs))`; any other result through `render_model`, wrapped as
`{"data": result}` when `force_wrap` is set.  (Iterating a Python string
yields its characters as one-character strings.)  `_ack_response` is only
reached with `ack_model` set; dereferencing a `None` model would raise. -/
def ClientEvent.ack_response (ev : ClientEvent) (result : PyVal) : Except PyError PyVal :=
  match ev.ack_model with
  | none => .error .attributeError
  | some am =>
    if isSequence result then
      match result with
      | .list xs => (unpack_params am ev.ack_kwargs xs).map render_packed
      | .str t =>
        (unpack_params am ev.ack_kwargs
          (t.toList.map (fun c => .str (String.mk [c])))).map render_packed
      | _ => .error .validationError
    else
      (render_model am ev.ack_kwargs result).map
        (fun r => if ev.force_wrap then .obj [("data", r)] else r)

/-- `ClientEvent._handler(function)` from the source: with no ack model the
inner handler returns `function(**self.parse(data))` unchanged; with an
ack model it returns `self._ack_response(function(**self.parse(data)))`. -/
def ClientEvent.handler_inner (ev : ClientEvent) (function : UserFn) : HandlerFn :=
  match ev.ack_model with
  | none => fun data => (ev.parse data).map function
  | some _ => fun data => (ev.parse data).map function >>= ev.ack_response

/-- `ClientEvent.bind(function)` from the source:
`self.handler = self._handler(function)`. -/
def ClientEvent.bind (ev : ClientEvent) (function : UserFn) : ClientEvent :=
  { ev with handler := some (ev.handler_inner function) }

/-- Invoke the stored handler with raw data, as the transport layer does.
(Calling a still-`None` handler attribute would raise.) -/
def callHandler (ev : ClientEvent) (data : PyVal) : Except PyError PyVal :=
  match ev.handler with
  | some h => h data
  | none => .error .attributeError

/-- `ClientEvent.attach_ack(...)` from the source: replaces `_ack_kwargs`,
`ack_model` and `force_wrap`; if a handler is already bound, stores
`lambda data=None: self._ack_response(self.handler)`.  The lambda's body
reads `self.handler` at call time (late binding), which by then is the
lambda itself — a function object passed to `_ack_response` without being
called, while the `data` argument is ignored.  `ack_response` applied to
the updated event and a function value models that call exactly. -/
def ClientEvent.attach_ack (ev : ClientEvent) (ack_model : Schema)
    (include_ exclude : Option (List String)) (force_wrap exclude_none : Option Bool) :
    ClientEvent :=
  let ev' : ClientEvent :=
    { ev with
      ack_kwargs :=
        { exclude_none := exclude_none != some false
          include_ := include_
          exclude := exclude
          by_alias := true }
      ack_model := some ack_model
      force_wrap := force_wrap == some true }
  match ev.handler with
  | none => ev'
  | some _ => { ev' with handler := some (fun _data => ev'.ack_response PyVal.func) }

/-- `ClientEvent.create_doc` from the source:
`{"publish": super().create_doc(namespace, additional_docs)}`. -/
def ClientEvent.create_doc (ev : ClientEvent) (ns_arg : Option String)
    (extra : Option Docs) : Docs :=
  [("publish", .obj (ev.toEvent.create_doc ns_arg extra))]

/-- The dispatch record handed to the transport's broadcast primitive:
`emit(self.name, data, to=room, include_self=include_self,
namespace=namespace)` from `ServerEvent._emit`. -/
structure EmitCall where
  event : Option String
  data : PyVal
  to_ : Option String
  include_self : Bool
  namespace_ : Option String

/-- `ServerEvent`: the outbound event.  Extends the `Event` state with the
emit rendering options `_emit_kwargs`.  (`ServerEvent.__init__` also
forces `model.Config.allow_population_by_field_name = True`, a mutation of
the external schema class that no claim touches.) -/
structure ServerEvent extends Event where
  emit_kwargs : RenderKwargs

/-- `ServerEvent.__init__` from the source.  Parameter order matters: it
is `(model, namespace, name, description, include, exclude, exclude_none,
additional_docs)` — namespace before name. -/
def ServerEvent.init (model : Schema) (namespace_ name description : Option String)
    (include_ exclude : Option (List String)) (exclude_none : Option Bool)
    (additional_docs : Option Docs) : ServerEvent :=
  { name := name
    namespace_ := namespace_
    additional_docs := additional_docs
    model := model
    description := description
    emit_kwargs :=
      { exclude_none := exclude_none != some false
        include_ := include_
        exclude := exclude
        by_alias := true } }

/-- `ServerEvent.emit(_room, _include_self, _data, _namespace, **kwargs)`
from the source: when `_data` is `None` an instance of the payload schema
is constructed as `self.model(**kwargs)` (validated by the schema layer);
the instance is rendered with the stored `_emit_kwargs` and handed to
`self._emit(rendered, _namespace, _room, _include_self)`, which calls the
transport primitive with the event's name. -/
def ServerEvent.emit (ev : ServerEvent) (_room : Option String) (_include_self : Bool)
    (_data : Option PyVal) (_namespace : Option String) (kwargs : List (String × PyVal)) :
    Except PyError EmitCall := do
  let d : PyVal ←
    match _data with
    | none => (ev.model.parse_obj (.obj kwargs)).map PyVal.obj
    | some v => pure v
  let rendered ← render_model ev.model ev.emit_kwargs d
  pure
    { event := ev.name
      data := rendered
      to_ := _room
      include_self := _include_self
      namespace_ := _namespace }

/-- `ServerEvent.create_doc` from the source:
`{"subscribe": super().create_doc(namespace, additional_docs)}`. -/
def ServerEvent.create_doc (ev : ServerEvent) (ns_arg : Option String)
    (extra : Option Docs) : Docs :=
  [("subscribe", .obj (ev.toEvent.create_doc ns_arg extra))]

/-- A Python attribute that may not have been assigned yet: `unset` means
the attribute does not exist on the object (reading it raises
`AttributeError`), `set v` means it holds `v` (possibly `None`). -/
inductive Attr (α : Type) where
  | unset : Attr α
  | set : Option α → Attr α

/-- `DuplexEvent`: pairs a `ClientEvent` and a `ServerEvent`.  The child
fields use `Attr` because `BaseEvent.__init__` runs (and may call
`attach_name`) before `DuplexEvent.__init__` assigns them. -/
structure DuplexEvent where
  name : Option String
  namespace_ : Option String
  additional_docs : Option Docs
  client_event : Attr ClientEvent
  server_event : Attr ServerEvent
  use_event : Bool
  description : Option String

/-- `DuplexEvent.attach_name(name)` from the source: sets `self.name`,
`self.client_event.name` and `self.server_event.name`.  Reading a child
attribute that is unset, or setting `.name` on a child that is `None`,
raises `AttributeError`. -/
def DuplexEvent.attach_name (d : DuplexEvent) (n : String) : Except PyError DuplexEvent :=
  match d.client_event, d.server_event with
  | .set (some c), .set (some s) =>
    .ok
      { d with
        name := some n
        client_event := .set (some { c with name := some n })
        server_event := .set (some { s with name := some n }) }
  | _, _ => .error .attributeError

/-- `DuplexEvent.attach_namespace(namespace)` from the source: sets
`self.namespace`, `self.client_event.namespace` and
`self.server_event.namespace`, with the same `AttributeError` behavior. -/
def DuplexEvent.attach_namespace (d : DuplexEvent) (ns : String) :
    Except PyError DuplexEvent :=
  match d.client_event, d.server_event with
  | .set (some c), .set (some s) =>
    .ok
      { d with
        namespace_ := some ns
        client_event := .set (some { c with namespace_ := some ns })
        server_event := .set (some { s with namespace_ := some ns }) }
  | _, _ => .error .attributeError

/-- `DuplexEvent.__init__` from the source.  `super().__init__(name,
namespace, additional_docs)` runs first: it stores the namespace and, when
`name` is not `None`, calls `self.attach_name(name)` — at that point
`client_event`/`server_event` are not yet attributes of the object, so the
call raises `AttributeError`.  Only afterwards does `DuplexEvent.__init__`
assign the children, the description and `use_event = bool(use_event)`. -/
def DuplexEvent.init (client_event : Option ClientEvent) (server_event : Option ServerEvent)
    (use_event : Option Bool) (namespace_ name description : Option String)
    (additional_docs : Option Docs) : Except PyError DuplexEvent := do
  let d0 : DuplexEvent :=
    { name := none
      namespace_ := namespace_
      additional_docs := additional_docs
      client_event := .unset
      server_event := .unset
      use_event := false
      description := none }
  let d1 ←
    match name with
    | some n => d0.attach_name n
    | none => pure d0
  pure
    { d1 with
      client_event := .set client_event
      server_event := .set server_event
      description := description
      use_event := use_event.getD false }

/-- `DuplexEvent.similar(...)` from the source.  It builds
`ClientEvent(model, ack_model, namespace, name, description, handler,
ack_include, ack_exclude, ack_force_wrap, ack_exclude_none)` and
`ServerEvent(model, name, namespace, description, include, exclude,
exclude_none)` — note the positional arguments to `ServerEvent`, whose
signature is `(model, namespace, name, ...)` — then
`cls(client, server, use_event, namespace, name, description,
additional_docs)`.  The defaults `exclude_none=True`,
`ack_exclude_none=True`, `ack_force_wrap=False` are booleans here, not
`None`. -/
def DuplexEvent.similar (model : Schema) (ack_model : Option Schema)
    (use_event : Option Bool) (name description namespace_ : Option String)
    (handler : Option HandlerFn) (include_ exclude : Option (List String))
    (exclude_none : Bool) (ack_include ack_exclude : Option (List String))
    (ack_exclude_none : Bool) (ack_force_wrap : Bool) (additional_docs : Option Docs) :
    Except PyError DuplexEvent :=
  DuplexEvent.init
    (some (ClientEvent.init model ack_model namespace_ name description handler
      ack_include ack_exclude (some ack_force_wrap) (some ack_exclude_none) none))
    (some (ServerEvent.init model name namespace_ description include_ exclude
      (some exclude_none) none))
    use_event namespace_ name description additional_docs

/-- `DuplexEvent.create_doc(namespace, additional_docs)` from the source:
`additional_docs.update(self.additional_docs or {})` mutates the caller's
dict in place (raising `AttributeError` on the default `None`); the
mutated dict is then passed to both children's `create_doc`, the two
fragments are merged (server keys over client keys), and `description` is
attached when present.  The result pairs the returned fragment with the
caller's dict as it is left after the in-place mutation. -/
def DuplexEvent.create_doc (d : DuplexEvent) (ns_arg : Option String)
    (additional_docs : Option Docs) : Except PyError (Docs × Docs) :=
  match additional_docs with
  | none => .error .attributeError
  | some ad =>
    let ad' := dictUpdate ad (d.additional_docs.getD [])
    match d.client_event, d.server_event with
    | .set (some c), .set (some s) =>
      let result := dictUpdate (c.create_doc ns_arg (some ad')) (s.create_doc ns_arg (some ad'))
      let result :=
        match d.description with
        | some desc => dictUpdate result [("description", .str desc)]
        | none => result
      .ok (result, ad')
    | _, _ => .error .attributeError

/-! ### Concrete schemas and events from the spec's scenarios -/

/-- The spec's scenario schema `Ping{value:int}`. -/
def PingS : Schema := { name := none, typeName := "Ping", fields := [("value", .int)] }

/-- The spec's scenario schema `Pong{value:int}`. -/
def PongS : Schema := { name := none, typeName := "Pong", fields := [("value", .int)] }

/-- The spec's scenario schema `Msg{text:str}`. -/
def MsgS : Schema := { name := none, typeName := "Msg", fields := [("text", .str)] }

/-- The spec's scenario handler `fn(value) -> value + 1`. -/
def fnInc : UserFn := fun fields =>
  match dget fields "value" with
  | some (.int n) => .int (n + 1)
  | _ => .pynone

/-- A `ClientEvent` on `Ping` with no ack schema (spec's first scenario). -/
def evPing : ClientEvent :=
  ClientEvent.init PingS none none none none none none none none none none

/-- A `ClientEvent` on `Ping` with ack schema `Pong` and `force_wrap=True`
(spec's second scenario). -/
def evPong : ClientEvent :=
  ClientEvent.init PingS (some PongS) none none none none none none (some true) none none

/-- A `ClientEvent` on `Ping` after `bind(fn)` followed by
`attach_ack(Pong)` — the configuration of the re-wrap claim. -/
def evC1 : ClientEvent :=
  ((ClientEvent.init PingS none none none none none none none none none
      none).bind fnInc).attach_ack PongS none none none none

/-- An `Event` with a stored namespace and no extras, exercising
`create_doc` with no call-time namespace. -/
def evDoc : Event :=
  { name := none, namespace_ := some "ns", additional_docs := none, model := MsgS,
    description := none }

/-- An `Event` with neither a stored namespace nor extras. -/
def evDoc2 : Event :=
  { name := none, namespace_ := none, additional_docs := none, model := MsgS,
    description := none }

/-- A `ServerEvent` on `Msg` named `"message"` (spec's emit scenario). -/
def evMsg : ServerEvent :=
  ServerEvent.init MsgS none (some "message") none none none none none

/-- A fully assigned `DuplexEvent` (children present, stored extras
`{"x": "1"}`). -/
def dupOK : DuplexEvent :=
  { name := none, namespace_ := none, additional_docs := some [("x", .str "1")],
    client_event := .set (some evPing), server_event := .set (some evMsg),
    use_event := false, description := none }

/-! ### Dictionary lemmas -/

theorem dget_append (l₁ l₂ : Docs) (k : String) :
    dget (l₁ ++ l₂) k =
      match dget l₁ k with
      | some v => some v
      | none => dget l₂ k := by
  induction l₁ with
  | nil => rfl
  | cons kv rest ih =>
    by_cases hk : kv.1 = k
    · simp [dget, hk]
    · simp [dget, hk, ih]

theorem dget_eq_none_of_not_mem_keys (o : Docs) (k : String)
    (h : k ∉ o.map Prod.fst) : dget o k = none := by
  induction o with
  | nil => rfl
  | cons kv rest ih =>
    have hk : kv.1 ≠ k := by
      intro he
      exact h (by simp [he])
    have hrest : k ∉ rest.map Prod.fst := by
      intro hm
      exact h (by simp [hm])
    simp [dget, hk, ih hrest]

theorem dget_mapUpdate (d o : Docs) (k : String) (ho : dget o k = none) :
    dget (d.map (fun kv => (kv.1, (dget o kv.1).getD kv.2))) k = dget d k := by
  induction d with
  | nil => rfl
  | cons kv rest ih =>
    by_cases hk : kv.1 = k
    · simp [dget, hk, ho]
    · simp [dget, hk, ih]

theorem dget_filter_none (o : Docs) (p : String × PyVal → Bool) (k : String)
    (ho : dget o k = none) : dget (o.filter p) k = none := by
  induction o with
  | nil => rfl
  | cons kv rest ih =>
    by_cases hk : kv.1 = k
    · simp [dget, hk] at ho
    · have ho' : dget rest k = none := by simpa [dget, hk] using ho
      by_cases hp : p kv
      · simp [List.filter, hp, dget, hk, ih ho']
      · simp [List.filter, hp, ih ho']

theorem dget_dictUpdate_not_mem (d o : Docs) (k : String)
    (h : k ∉ o.map Prod.fst) : dget (dictUpdate d o) k = dget d k := by
  have ho := dget_eq_none_of_not_mem_keys o k h
  unfold dictUpdate
  rw [dget_append, dget_mapUpdate d o k ho,
    dget_filter_none o _ k ho]
  cases dget d k <;> rfl

theorem dictUpdate_entry_of_unique (d o : Docs) (k : String) (v₀ : PyVal)
    (hd : ∀ w, (k, w) ∈ d → w = v₀) (ho : k ∉ o.map Prod.fst) :
    ∀ w, (k, w) ∈ dictUpdate d o → w = v₀ := by
  intro w hw
  have hoget := dget_eq_none_of_not_mem_keys o k ho
  rcases List.mem_append.mp hw with hmap | hfil
  · rcases List.mem_map.mp hmap with ⟨kv, hkv, heq⟩
    have hk1 : kv.1 = k := congrArg Prod.fst heq
    have hv : (dget o kv.1).getD kv.2 = w := congrArg Prod.snd heq
    rw [hk1, hoget] at hv
    have hmem : (k, kv.2) ∈ d := by
      rw [← hk1]
      exact hkv
    rw [← hv]
    exact hd kv.2 hmem
  · have hmem : (k, w) ∈ o := List.mem_of_mem_filter hfil
    exact absurd (List.mem_map_of_mem Prod.fst hmem) ho

theorem dget_remove_none_keep (l : Docs) (k : String)
    (hall : ∀ w, (k, w) ∈ l → isEmptyVal w = false) :
    dget (remove_none l) k = dget l k := by
  induction l with
  | nil => rfl
  | cons kv rest ih =>
    have hrest : ∀ w, (k, w) ∈ rest → isEmptyVal w = false := fun w hw =>
      hall w (List.mem_cons_of_mem _ hw)
    by_cases hk : kv.1 = k
    · have hkv : isEmptyVal kv.2 = false := by
        apply hall kv.2
        rw [← hk]
        exact List.mem_cons_self _ _
      simp [remove_none, List.filter, hkv, dget, hk]
    · by_cases hp : isEmptyVal kv.2
      · simpa [remove_none, List.filter, hp, dget, hk] using ih hrest
      · simpa [remove_none, List.filter, hp, dget, hk] using ih hrest

theorem dget_remove_none_drop (l : Docs) (k : String)
    (hall : ∀ w, (k, w) ∈ l → isEmptyVal w = true) :
    dget (remove_none l) k = none := by
  induction l with
  | nil => rfl
  | cons kv rest ih =>
    have hrest : ∀ w, (k, w) ∈ rest → isEmptyVal w = true := fun w hw =>
      hall w (List.mem_cons_of_mem _ hw)
    by_cases hk : kv.1 = k
    · have hkv : isEmptyVal kv.2 = true := by
        apply hall kv.2
        rw [← hk]
        exact List.mem_cons_self _ _
      simpa [remove_none, List.filter, hkv] using ih hrest
    · by_cases hp : isEmptyVal kv.2
      · simpa [remove_none, List.filter, hp] using ih hrest
      · simpa [remove_none, List.filter, hp, dget, hk] using ih hrest

theorem isEmptyVal_of_mem_remove_none (l : Docs) (kv : String × PyVal)
    (h : kv ∈ remove_none l) : isEmptyVal kv.2 = false := by
  have := List.of_mem_filter h
  simpa using this

/-- An auxiliary fact about `Event.create_doc`'s merged dictionary: when
neither the stored nor the call-time extras mention `"tags"`, every
`"tags"` entry of the merged dict carries the base tag value, and looking
`"tags"` up yields it. -/
theorem create_doc_tags_aux (dv mv tagsVal : PyVal) (stored extra : Docs)
    (hstored : "tags" ∉ stored.map Prod.fst) (hextra : "tags" ∉ extra.map Prod.fst) :
    (∀ w, ("tags", w) ∈
        dictUpdate (dictUpdate [("description", dv), ("tags", tagsVal), ("message", mv)]
          stored) extra →
      w = tagsVal) ∧
    dget (dictUpdate (dictUpdate [("description", dv), ("tags", tagsVal), ("message", mv)]
        stored) extra) "tags" = some tagsVal := by
  have hbase : ∀ w,
      ("tags", w) ∈ [("description", dv), ("tags", tagsVal), ("message", mv)] →
      w = tagsVal := by
    intro w hw
    simp only [List.mem_cons, List.not_mem_nil, or_false] at hw
    rcases hw with h | h | h
    · have h1 : ("tags" : String) = "description" := congrArg Prod.fst h
      exact absurd h1 (by decide)
    · exact congrArg Prod.snd h
    · have h1 : ("tags" : String) = "message" := congrArg Prod.fst h
      exact absurd h1 (by decide)
  refine ⟨?_, ?_⟩
  · exact dictUpdate_entry_of_unique _ extra "tags" tagsVal
      (dictUpdate_entry_of_unique _ stored "tags" tagsVal hbase hstored) hextra
  · rw [dget_dictUpdate_not_mem _ _ _ hextra, dget_dictUpdate_not_mem _ _ _ hstored]
    rfl

/-! ### Claims -/

/-- C1: the code at the failing input.  `evC1` is a `ClientEvent` on
`Ping` whose handler was bound (`fn(value) -> value + 1`) and which was
then given an ack schema through `attach_ack(Pong)`.  Invoking the stored
handler with the valid payload `{"value": 1}` raises a validation error:
the `attach_ack` lambda ignores its data argument and feeds the handler
function object itself, uncalled, into `_ack_response`.  The second
conjunct computes what the claim says should happen — parse the data,
call `fn`, ack-render `fn`'s output — which yields `{"value": 2}`. -/
theorem claim_C1_attach_ack_rewrap_eval :
    callHandler evC1 (.obj [("value", .int 1)]) = .error .validationError ∧
    (evC1.parse (.obj [("value", .int 1)])).map fnInc >>= evC1.ack_response =
      .ok (.obj [("value", .int 2)]) :=
  ⟨rfl, rfl⟩

/-- C2: `DuplexEvent.similar` on `Msg` with `namespace="ns"` (and the name
left `None`, since an explicit name raises, see C3).  The resulting client
event has name `None` / namespace `"ns"`, but the server event has name
`"ns"` / namespace `None`: `similar` passes name and namespace to
`ServerEvent` positionally swapped, so the pair disagrees on both
fields, contradicting the claim. -/
theorem claim_C2_similar_mismatch :
    match DuplexEvent.similar MsgS none none none none (some "ns") none none none
        true none none true false none with
    | .ok d =>
      match d.client_event, d.server_event with
      | .set (some c), .set (some s) =>
        c.namespace_ = some "ns" ∧ s.namespace_ = none ∧
          c.name = none ∧ s.name = some "ns"
      | _, _ => False
    | .error _ => False :=
  ⟨rfl, rfl, rfl, rfl⟩

/-- C3: constructing a `DuplexEvent` with a non-`None` name raises
`AttributeError` for every choice of the other arguments, because
`BaseEvent.__init__` calls `attach_name` before `client_event` and
`server_event` are assigned; the same holds for any `similar` call with an
explicit name. -/
theorem claim_C3_duplex_name_at_init_raises :
    ∀ (client : Option ClientEvent) (server : Option ServerEvent)
      (use_event : Option Bool) (ns desc : Option String) (n : String)
      (docs : Option Docs) (model : Schema) (ack : Option Schema)
      (h : Option HandlerFn) (inc exc ainc aexc : Option (List String))
      (en aen afw : Bool),
      DuplexEvent.init client server use_event ns (some n) desc docs =
        .error .attributeError ∧
      DuplexEvent.similar model ack use_event (some n) desc ns h inc exc en
          ainc aexc aen afw docs =
        .error .attributeError := by
  intros
  exact ⟨rfl, rfl⟩

/-- C4: on a `DuplexEvent` whose children are assigned, `attach_name X`
succeeds and sets the pair's name and both children's names to `X`, and
`attach_namespace Y` likewise sets all three namespace fields to `Y`; in
particular the two children agree on the touched field afterwards. -/
theorem claim_C4_attach_propagates (d : DuplexEvent) (c : ClientEvent) (s : ServerEvent)
    (hc : d.client_event = .set (some c)) (hs : d.server_event = .set (some s))
    (n ns : String) :
    (∃ d' c' s', d.attach_name n = .ok d' ∧ d'.client_event = .set (some c') ∧
      d'.server_event = .set (some s') ∧ d'.name = some n ∧ c'.name = some n ∧
      s'.name = some n) ∧
    (∃ d' c' s', d.attach_namespace ns = .ok d' ∧ d'.client_event = .set (some c') ∧
      d'.server_event = .set (some s') ∧ d'.namespace_ = some ns ∧
      c'.namespace_ = some ns ∧ s'.namespace_ = some ns) := by
  constructor
  · unfold DuplexEvent.attach_name
    rw [hc, hs]
    exact ⟨_, _, _, rfl, rfl, rfl, rfl, rfl, rfl⟩
  · unfold DuplexEvent.attach_namespace
    rw [hc, hs]
    exact ⟨_, _, _, rfl, rfl, rfl, rfl, rfl, rfl⟩

/-- Witness for C4 at a concrete pair. -/
theorem claim_C4_witness :
    (∃ d' c' s', dupOK.attach_name "n" = .ok d' ∧ d'.client_event = .set (some c') ∧
      d'.server_event = .set (some s') ∧ d'.name = some "n" ∧ c'.name = some "n" ∧
      s'.name = some "n") ∧
    (∃ d' c' s', dupOK.attach_namespace "ns" = .ok d' ∧
      d'.client_event = .set (some c') ∧ d'.server_event = .set (some s') ∧
      d'.namespace_ = some "ns" ∧ c'.namespace_ = some "ns" ∧
      s'.namespace_ = some "ns") :=
  claim_C4_attach_propagates dupOK evPing evMsg rfl rfl "n" "ns"

/-- C5, the claim as stated, is false at a concrete input: `evDoc` stores
namespace `"ns"`; calling `create_doc` with no namespace argument emits no
namespace tag, although the claim requires the tag exactly when no
namespace argument was given at call time. -/
theorem claim_C5_counterexample :
    ¬ ((dget (evDoc.create_doc none none) "tags").isSome = true ↔
        (none : Option String).isNone = true) :=
  fun h => absurd (h.mpr rfl) (by decide)

/-- C5 amended: provided neither the stored nor the call-time extra docs
mention `"tags"`, `create_doc` emits the namespace tag list (whose single
tag renders as `"namespace-None"`) exactly when the resolved namespace —
the call-time argument, falling back to the event's stored namespace — is
`None`; and the returned descriptor never contains a key whose value is
absent/empty. -/
theorem claim_C5_create_doc_tags (e : Event) (ns_arg : Option String) (extra : Option Docs)
    (hstored : "tags" ∉ (e.additional_docs.getD []).map Prod.fst)
    (hextra : "tags" ∉ (extra.getD []).map Prod.fst) :
    (dget (e.create_doc ns_arg extra) "tags" =
      match ns_arg with
      | none =>
        match e.namespace_ with
        | none => some (PyVal.list [PyVal.obj [("name", PyVal.str "namespace-None")]])
        | some _ => none
      | some _ => none) ∧
    ∀ kv ∈ e.create_doc ns_arg extra, isEmptyVal kv.2 = false := by
  constructor
  · cases ns_arg with
    | some v =>
      have aux := create_doc_tags_aux (optStr e.description)
        (PyVal.obj [("$ref", PyVal.str ("#/components/messages/" ++ e.model.displayName))])
        (PyVal.list []) (e.additional_docs.getD []) (extra.getD []) hstored hextra
      simp only [Event.create_doc, Option.isNone]
      apply dget_remove_none_drop
      intro w hw
      rw [aux.1 w hw]
      rfl
    | none =>
      cases hn : e.namespace_ with
      | some v =>
        have aux := create_doc_tags_aux (optStr e.description)
          (PyVal.obj [("$ref", PyVal.str ("#/components/messages/" ++ e.model.displayName))])
          (PyVal.list []) (e.additional_docs.getD []) (extra.getD []) hstored hextra
        simp only [Event.create_doc, hn, Option.isNone]
        apply dget_remove_none_drop
        intro w hw
        rw [aux.1 w hw]
        rfl
      | none =>
        have aux := create_doc_tags_aux (optStr e.description)
          (PyVal.obj [("$ref", PyVal.str ("#/components/messages/" ++ e.model.displayName))])
          (PyVal.list [PyVal.obj [("name", PyVal.str "namespace-None")]])
          (e.additional_docs.getD []) (extra.getD []) hstored hextra
        simp only [Event.create_doc, hn, Option.isNone]
        rw [dget_remove_none_keep]
        · exact aux.2
        · intro w hw
          rw [aux.1 w hw]
          rfl
  · intro kv hkv
    exact isEmptyVal_of_mem_remove_none _ kv hkv

/-- Witness for the amended C5 at a concrete event with no stored
namespace and no extras: the tag is emitted and nothing empty remains. -/
theorem claim_C5_witness :
    (dget (evDoc2.create_doc none none) "tags" =
      some (PyVal.list [PyVal.obj [("name", PyVal.str "namespace-None")]])) ∧
    ∀ kv ∈ evDoc2.create_doc none none, isEmptyVal kv.2 = false :=
  claim_C5_create_doc_tags evDoc2 none none (by simp [evDoc2]) (by simp)

/-- C6: with an ack schema set, the bound handler parses the data, calls
`fn`, and renders the result through `_ack_response`: a sequence result is
rendered element-by-element and packed; a non-sequence result is rendered
as one object and wrapped in `{"data": ...}` exactly when `force_wrap` is
set; and the spec's scenario (ack `Pong{value:int}`, `force_wrap=True`,
handler returning `5`) yields `{"data": {"value": 5}}`. -/
theorem claim_C6_ack_rendering (ev : ClientEvent) (am : Schema)
    (ham : ev.ack_model = some am) :
    (∀ fn data, callHandler (ev.bind fn) data =
      (ev.parse data).map fn >>= ev.ack_response) ∧
    (∀ xs, ev.ack_response (.list xs) =
      (unpack_params am ev.ack_kwargs xs).map render_packed) ∧
    (∀ v, isSequence v = false →
      ev.ack_response v = (render_model am ev.ack_kwargs v).map
        (fun r => if ev.force_wrap then PyVal.obj [("data", r)] else r)) ∧
    callHandler (evPong.bind (fun _ => .int 5)) (.obj [("value", .int 1)]) =
      .ok (.obj [("data", .obj [("value", .int 5)])]) := by
  refine ⟨?_, ?_, ?_, rfl⟩
  · intro fn data
    simp [callHandler, ClientEvent.bind, ClientEvent.handler_inner, ham]
  · intro xs
    simp [ClientEvent.ack_response, ham, isSequence, unpack_params]
  · intro v hv
    simp [ClientEvent.ack_response, ham, hv]

/-- Witness for C6 at concrete inputs (event `evPong`, ack schema `Pong`,
a one-element sequence, the non-sequence value `7`, and the scenario). -/
theorem claim_C6_witness :
    (callHandler (evPong.bind fnInc) (.obj [("value", .int 3)]) =
      (evPong.parse (.obj [("value", .int 3)])).map fnInc >>= evPong.ack_response) ∧
    (evPong.ack_response (.list [.int 1]) =
      (unpack_params PongS evPong.ack_kwargs [.int 1]).map render_packed) ∧
    (evPong.ack_response (.int 7) = (render_model PongS evPong.ack_kwargs (.int 7)).map
      (fun r => if evPong.force_wrap then PyVal.obj [("data", r)] else r)) ∧
    callHandler (evPong.bind (fun _ => .int 5)) (.obj [("value", .int 1)]) =
      .ok (.obj [("data", .obj [("value", .int 5)])]) :=
  ⟨(claim_C6_ack_rendering evPong PongS rfl).1 fnInc (.obj [("value", .int 3)]),
    (claim_C6_ack_rendering evPong PongS rfl).2.1 [.int 1],
    (claim_C6_ack_rendering evPong PongS rfl).2.2.1 (.int 7) rfl,
    (claim_C6_ack_rendering evPong PongS rfl).2.2.2⟩

/-- C7: with no ack schema, the bound handler returns `fn`'s value for a
valid payload unmodified: `fn(**parse(P))`; and the spec's scenario
(`Ping{value:int}`, `fn(value) -> value + 1`, payload `{"value": 1}`)
yields `2`. -/
theorem claim_C7_no_ack_identity (ev : ClientEvent) (hack : ev.ack_model = none)
    (fn : UserFn) (data : PyVal) (parsed : List (String × PyVal))
    (hp : ev.parse data = .ok parsed) :
    callHandler (ev.bind fn) data = .ok (fn parsed) ∧
    callHandler (evPing.bind fnInc) (.obj [("value", .int 1)]) = .ok (.int 2) := by
  refine ⟨?_, rfl⟩
  simp [callHandler, ClientEvent.bind, ClientEvent.handler_inner, hack, hp, Except.map]

/-- Witness for C7 at the spec's scenario inputs. -/
theorem claim_C7_witness :
    (callHandler (evPing.bind fnInc) (.obj [("value", .int 1)]) =
      .ok (fnInc [("value", .int 1)])) ∧
    callHandler (evPing.bind fnInc) (.obj [("value", .int 1)]) = .ok (.int 2) :=
  claim_C7_no_ack_identity evPing rfl fnInc (.obj [("value", .int 1)])
    [("value", .int 1)] rfl

/-- C8: for a payload the schema rejects, `parse` raises a validation
error, the error propagates unchanged out of the bound handler, and the
user handler is never invoked — the result does not depend on the bound
function at all (with or without an ack schema). -/
theorem claim_C8_invalid_payload (ev : ClientEvent) (fn fn' : UserFn) (data : PyVal)
    (e : PyError) (hp : ev.model.parse_obj data = .error e) :
    callHandler (ev.bind fn) data = .error e ∧
    callHandler (ev.bind fn) data = callHandler (ev.bind fn') data := by
  have hfn : ∀ g : UserFn, callHandler (ev.bind g) data = .error e := by
    intro g
    cases hackm : ev.ack_model with
    | none =>
      simp [callHandler, ClientEvent.bind, ClientEvent.handler_inner,
        ClientEvent.parse, hackm, hp, Except.map]
    | some am =>
      simp [callHandler, ClientEvent.bind, ClientEvent.handler_inner,
        ClientEvent.parse, hackm, hp, Except.map, Except.bind, Bind.bind]
  exact ⟨hfn fn, (hfn fn).trans (hfn fn').symm⟩

/-- Witness for C8: the payload `{"value": "x"}` is mistyped for
`Ping{value:int}`; the two distinct handlers are never consulted. -/
theorem claim_C8_witness :
    callHandler (evPing.bind fnInc) (.obj [("value", .str "x")]) =
      .error .validationError ∧
    callHandler (evPing.bind fnInc) (.obj [("value", .str "x")]) =
      callHandler (evPing.bind (fun _ => .pynone)) (.obj [("value", .str "x")]) :=
  claim_C8_invalid_payload evPing fnInc (fun _ => .pynone)
    (.obj [("value", .str "x")]) .validationError rfl

/-- C9: `emit` with `_data` not supplied constructs the payload instance
from the keyword arguments, renders it with the stored options, and
dispatches it under the event's name to the given namespace/room with the
given include-self flag; the spec's scenario (`Msg{text:str}`,
`emit(room="r1", text="hi")`) dispatches `{"text": "hi"}` to room `"r1"`. -/
theorem claim_C9_emit (ev : ServerEvent) (room : Option String) (inc : Bool)
    (ns : Option String) (kwargs inst : List (String × PyVal))
    (hk : ev.model.parse_obj (.obj kwargs) = .ok inst) (rendered : PyVal)
    (hr : render_model ev.model ev.emit_kwargs (.obj inst) = .ok rendered) :
    ev.emit room inc none ns kwargs =
      .ok { event := ev.name, data := rendered, to_ := room, include_self := inc,
            namespace_ := ns } ∧
    evMsg.emit (some "r1") true none none [("text", .str "hi")] =
      .ok { event := some "message", data := .obj [("text", .str "hi")],
            to_ := some "r1", include_self := true, namespace_ := none } := by
  refine ⟨?_, rfl⟩
  simp [ServerEvent.emit, hk, hr, Except.map, Except.bind, Bind.bind, Functor.map,
    Except.pure, Pure.pure]

/-- Witness for C9 at the spec's scenario inputs. -/
theorem claim_C9_witness :
    (evMsg.emit (some "r1") true none none [("text", .str "hi")] =
      .ok { event := evMsg.name, data := .obj [("text", .str "hi")], to_ := some "r1",
            include_self := true, namespace_ := none }) ∧
    evMsg.emit (some "r1") true none none [("text", .str "hi")] =
      .ok { event := some "message", data := .obj [("text", .str "hi")],
            to_ := some "r1", include_self := true, namespace_ := none } :=
  claim_C9_emit evMsg (some "r1") true none [("text", .str "hi")]
    [("text", .str "hi")] rfl (.obj [("text", .str "hi")]) rfl

/-- C10: `DuplexEvent.create_doc` raises `AttributeError` when called
without an `additional_docs` dict (the default `None` is `.update`d), and
when a dict is supplied it is mutated in place — the event's stored extras
are merged into the caller's dict — before the children are consulted;
the pair returned by the embedding carries the documentation fragment and
the caller's dict as the call leaves it. -/
theorem claim_C10_duplex_create_doc (d : DuplexEvent) (ns : Option String)
    (c : ClientEvent) (s : ServerEvent) (hc : d.client_event = .set (some c))
    (hs : d.server_event = .set (some s)) (ad : Docs) :
    d.create_doc ns none = .error .attributeError ∧
    ∃ res, d.create_doc ns (some ad) =
      .ok (res, dictUpdate ad (d.additional_docs.getD [])) := by
  refine ⟨rfl, ?_⟩
  simp only [DuplexEvent.create_doc, hc, hs]
  exact ⟨_, rfl⟩

/-- Witness for C10 at a concrete pair with stored extras `{"x": "1"}` and
caller dict `{"y": 2}`. -/
theorem claim_C10_witness :
    dupOK.create_doc none none = .error .attributeError ∧
    ∃ res, dupOK.create_doc none (some [("y", .int 2)]) =
      .ok (res, dictUpdate [("y", .int 2)] (dupOK.additional_docs.getD [])) :=
  claim_C10_duplex_create_doc dupOK none evPing evMsg rfl rfl [("y", .int 2)]

end FlaskSiox
